import Mathlib

/-!
# Verification of the synthetic-trajectory generation scripts

A shallow embedding, in Lean 4, of the Python scripts in
`generating_synthetic_data/` of the auto-marker-label repository:

* `generate_synthetic_data.py` — the CLI wrapper around the core generator
  `automarkerlabel.generateSimTrajectories` (argument parsing with defaults,
  input validation, the single core call, the summary report, and the
  catch-all error handler);
* `config_template.py` — the configuration-file driver with its constants,
  `validate_config`, and its main that aborts on errors (not on warnings);
* the core generation pipeline itself (`automarkerlabel.generateSimTrajectories`),
  whose source file is not part of the script package: its Segmenter and
  Dataset Assembler behaviour is modelled from the specification.

Filesystem state is abstracted as a predicate `String → Bool` (does the path
exist), and `os.path.dirname` as an opaque `String → String`, since the
scripts only consult them through these two operations.
-/

namespace AML

/-! ## CLI wrapper: `generate_synthetic_data.py` -/

/-- The parsed command-line arguments of `generate_synthetic_data.py`
(after argparse has applied defaults): `--bodykin`, `--markerset`,
`--output`, `--align-right`, `--align-left`, `--fs`, `--num-participants`,
`--max-len`. Integer-valued options are Python `int`s, embedded as `Int`. -/
structure Args where
  bodykin : String
  markerset : String
  output : String
  align_right : String
  align_left : String
  fs : Int
  num_participants : Int
  max_len : Int
deriving DecidableEq, Repr

/-- The raw command line before argparse applies defaults: the six required
options must be present; `--num-participants` and `--max-len` are optional
(`none` when the flag is omitted). -/
structure RawArgs where
  bodykin : String
  markerset : String
  output : String
  align_right : String
  align_left : String
  fs : Int
  num_participants : Option Int
  max_len : Option Int
deriving DecidableEq, Repr

/-- `parser.parse_args()`: argparse fills in the declared defaults
`--num-participants` → 100 and `--max-len` → 240 when the flags are absent
(generate_synthetic_data.py lines 69-72). -/
def parse_args (r : RawArgs) : Args :=
  { bodykin := r.bodykin
    markerset := r.markerset
    output := r.output
    align_right := r.align_right
    align_left := r.align_left
    fs := r.fs
    num_participants := r.num_participants.getD 100
    max_len := r.max_len.getD 240 }

/-- The input-validation block of `main` (generate_synthetic_data.py lines
77-88), checked in source order: the bodykin path must exist, the markerset
path must exist, and `num_participants` must lie in 1..100. `none` means the
script printed an ERROR line and called `sys.exit(1)`; `some ()` means
control reaches the generation call. `pe` is the filesystem: `pe p = true`
iff `os.path.exists(p)`. -/
def validateArgs (pe : String → Bool) (a : Args) : Option Unit :=
  if pe a.bodykin = false then none
  else if pe a.markerset = false then none
  else if a.num_participants < 1 ∨ a.num_participants > 100 then none
  else some ()

/-- The keyword arguments of the single call
`aml.generateSimTrajectories(...)` in the wrapper (lines 115-124) and in the
config template (lines 173-182). -/
structure CoreCall where
  bodykinpath : String
  markersetpath : String
  outputfile : String
  alignMkR : String
  alignMkL : String
  fs : Int
  num_participants : Int
  max_len : Int
deriving DecidableEq, Repr

/-- The wrapper's core call (lines 115-124): every field is the
corresponding parsed argument, passed through unmodified. -/
def mkCoreCall (a : Args) : CoreCall :=
  { bodykinpath := a.bodykin
    markersetpath := a.markerset
    outputfile := a.output
    alignMkR := a.align_right
    alignMkL := a.align_left
    fs := a.fs
    num_participants := a.num_participants
    max_len := a.max_len }

/-- The sequence of core invocations `main` performs, in order: none when
validation exits early, exactly one — with the unmodified arguments — once
validation passes (the call site at lines 115-124 is the only one and is
executed once, unconditionally, after validation). -/
def wrapperCoreCalls (pe : String → Bool) (a : Args) : List CoreCall :=
  match validateArgs pe a with
  | none => []
  | some () => [mkCoreCall a]

/-- What the wrapper observes of one returned trajectory segment: a tensor
whose `shape[0]` is the frame count and `shape[1]` the marker count (the
summary block reads nothing else). -/
structure Seg where
  shape0 : Nat
  shape1 : Nat
deriving DecidableEq, Repr

/-- Outcome of the `aml.generateSimTrajectories` call as seen by the
wrapper's `try` block: either it returns a list of segments, or it raises an
exception carrying a message (`str(e)`). -/
inductive CoreResult where
  | ok (data : List Seg)
  | exn (msg : String)
deriving DecidableEq, Repr

/-- The values printed by the success report (lines 133-135): total segment
count `len(data)`, `data[0].shape[1]`, and the min/max of
`[x.shape[0] for x in data]`. -/
structure RunSummary where
  total : Nat
  markersPerSegment : Nat
  minLen : Nat
  maxLen : Nat
deriving DecidableEq, Repr

/-- Evaluating the summary block (lines 133-135). On an empty `data`,
`data[0]` raises `IndexError` with message "list index out of range" before
any of `min`/`max` is reached; otherwise all four statistics are defined
(`min`/`max` of a Python list fold over all its elements). -/
def summarize (data : List Seg) : Except String RunSummary :=
  match data with
  | [] => Except.error "list index out of range"
  | d :: rest =>
      Except.ok
        { total := (d :: rest).length
          markersPerSegment := d.shape1
          minLen := (rest.map Seg.shape0).foldl min d.shape0
          maxLen := (rest.map Seg.shape0).foldl max d.shape0 }

/-- How one run of the wrapper's `main` terminates: `validationExit` is a
`sys.exit(1)` from the validation block before the core is invoked;
`fatalExit msg` is the `except` handler (line 142-146) printing
"ERROR during generation: msg" plus a traceback and calling `sys.exit(1)`;
`success s` is the full GENERATION COMPLETE report followed by normal
termination. -/
inductive MainOutcome where
  | validationExit
  | fatalExit (msg : String)
  | success (s : RunSummary)
deriving DecidableEq, Repr

/-- The process exit status of each outcome: 1 for both error paths
(`sys.exit(1)`), 0 for a completed run. -/
def MainOutcome.exitStatus : MainOutcome → Nat
  | MainOutcome.validationExit => 1
  | MainOutcome.fatalExit _ => 1
  | MainOutcome.success _ => 0

/-- `main` of generate_synthetic_data.py, as a function of the filesystem
`pe`, the parsed arguments `a`, and the behaviour `core` of
`aml.generateSimTrajectories` at the call the wrapper makes: validate
(lines 77-88), call the core inside `try` (lines 114-124), evaluate the
summary (lines 128-141, still inside `try`), and route any exception —
raised by the core or by the summary itself — to the `except` handler
(lines 142-146). -/
def wrapperMain (pe : String → Bool) (a : Args) (core : CoreCall → CoreResult) :
    MainOutcome :=
  match validateArgs pe a with
  | none => MainOutcome.validationExit
  | some () =>
      match core (mkCoreCall a) with
      | CoreResult.exn msg => MainOutcome.fatalExit msg
      | CoreResult.ok data =>
          match summarize data with
          | Except.error msg => MainOutcome.fatalExit msg
          | Except.ok s => MainOutcome.success s

/-! ## Configuration template: `config_template.py` -/

/-- The module-level configuration constants of config_template.py
(lines 25-39). -/
structure ConfigConsts where
  BODYKIN_PATH : String
  MARKERSET_PATH : String
  OUTPUT_PATH : String
  ALIGN_MARKER_RIGHT : String
  ALIGN_MARKER_LEFT : String
  SAMPLING_FREQUENCY : Int
  NUM_PARTICIPANTS : Int
  MAX_SEGMENT_LENGTH : Int
deriving DecidableEq, Repr

/-- The values the template ships with (config_template.py lines 25-39). -/
def defaultConfig : ConfigConsts :=
  { BODYKIN_PATH := "../data/bodykinematics.hdf5"
    MARKERSET_PATH := "../data/MarkerSet.xml"
    OUTPUT_PATH := "../data/simulatedTrajectories.pickle"
    ALIGN_MARKER_RIGHT := "RAC"
    ALIGN_MARKER_LEFT := "LAC"
    SAMPLING_FREQUENCY := 240
    NUM_PARTICIPANTS := 100
    MAX_SEGMENT_LENGTH := 240 }

/-- `validate_config()` (config_template.py lines 74-104): returns the pair
`(errors, warnings)`, each accumulated in source order. Errors: missing
bodykin file (two lines), missing markerset file, `NUM_PARTICIPANTS`
outside 1..100. Warnings: `SAMPLING_FREQUENCY` outside 50..500 (two lines),
`MAX_SEGMENT_LENGTH` outside 60..500 (two lines), and a to-be-created output
directory. `pe` is `os.path.exists`; `dirname` is `os.path.dirname`. -/
def validate_config (pe : String → Bool) (dirname : String → String)
    (c : ConfigConsts) : List String × List String :=
  let errors :=
    (if pe c.BODYKIN_PATH = false then
      ["Body kinematics file not found: " ++ c.BODYKIN_PATH,
       "  Download from: https://doi.org/10.5281/zenodo.4293999"]
     else []) ++
    (if pe c.MARKERSET_PATH = false then
      ["Marker set file not found: " ++ c.MARKERSET_PATH]
     else []) ++
    (if c.NUM_PARTICIPANTS < 1 ∨ c.NUM_PARTICIPANTS > 100 then
      ["NUM_PARTICIPANTS must be 1-100, got " ++ toString c.NUM_PARTICIPANTS]
     else [])
  let warnings :=
    (if c.SAMPLING_FREQUENCY < 50 ∨ c.SAMPLING_FREQUENCY > 500 then
      ["Unusual sampling frequency: " ++ toString c.SAMPLING_FREQUENCY ++ " Hz",
       "  Common values: 120, 240 Hz"]
     else []) ++
    (if c.MAX_SEGMENT_LENGTH < 60 ∨ c.MAX_SEGMENT_LENGTH > 500 then
      ["Unusual max segment length: " ++ toString c.MAX_SEGMENT_LENGTH ++ " frames",
       "  Typical range: 120-240 frames"]
     else []) ++
    (let d := dirname c.OUTPUT_PATH
     if d ≠ "" ∧ pe d = false then
      ["Output directory will be created: " ++ d]
     else [])
  (errors, warnings)

/-- The early-exit decision of the template's `main` (lines 140-146):
`sys.exit(1)` exactly when the `errors` list from `validate_config` is
non-empty; warnings are printed but never abort. -/
def configMainExitsEarly (pe : String → Bool) (dirname : String → String)
    (c : ConfigConsts) : Bool :=
  !((validate_config pe dirname c).1.isEmpty)

/-- The core call the template's `main` makes (lines 173-182): each keyword
argument is the corresponding module constant, unmodified. -/
def configCoreCall (c : ConfigConsts) : CoreCall :=
  { bodykinpath := c.BODYKIN_PATH
    markersetpath := c.MARKERSET_PATH
    outputfile := c.OUTPUT_PATH
    alignMkR := c.ALIGN_MARKER_RIGHT
    alignMkL := c.ALIGN_MARKER_LEFT
    fs := c.SAMPLING_FREQUENCY
    num_participants := c.NUM_PARTICIPANTS
    max_len := c.MAX_SEGMENT_LENGTH }

/-! ## The core generation pipeline, modelled from the spec

The source of `automarkerlabel.generateSimTrajectories` is not part of the
script package; only its call sites are. The Segmenter and Dataset
Assembler are therefore modelled from the specification (§4.5, §4.6, the
NaN edge-case policy of §4.3 and the error taxonomy of §7). -/

/-- A marker position for one frame, in millimetres. The pipeline computes
in floating point; the claims settled here are structural (chunk layout,
NaN placement, selection, error routing), so coordinates are embedded as
exact integers. -/
abbrev Vec3 := Int × Int × Int

/-- Modelled from the spec (§4.3): one frame of a trajectory holds one
position per marker, in catalog order; `none` is the NaN emitted for an
invalid/missing source frame (never extrapolated). -/
abbrev Frame := List (Option Vec3)

/-- Modelled from the spec (§3): a trial's aligned trajectory, one `Frame`
per time step. -/
abbrev Trial := List Frame

/-- Modelled from the spec (§3): a `TrajectorySegment` — a contiguous chunk
of a trial, shape (frameCount, numMarkers, 3). -/
abbrev Chunk := List Frame

/-- Fuel-based worker for `splitFrames`: structurally recursive on `fuel`
so that the kernel can evaluate it on concrete trials. With
`fuel ≥ frames.length` the fuel never runs out (each step consumes at
least one frame). -/
def splitFramesAux (fuel maxLen : Nat) (frames : List α) : List (List α) :=
  match fuel with
  | 0 => []
  | fuel + 1 =>
      if maxLen = 0 then []
      else if frames.length = 0 then []
      else if frames.length ≤ maxLen then [frames]
      else frames.take maxLen :: splitFramesAux fuel maxLen (frames.drop maxLen)

/-- Modelled from the spec (§4.5): partition a trial's frames into
consecutive chunks of exactly `maxLen` frames, the final chunk holding the
remainder. An empty trial yields no chunks; `maxLen = 0` is outside the
contract (callers are range-checked) and yields no chunks. -/
def splitFrames (maxLen : Nat) (frames : List α) : List (List α) :=
  splitFramesAux frames.length maxLen frames

/-- The fuel argument is irrelevant once it covers the frame count. -/
theorem splitFramesAux_eq_len (M : Nat) :
    ∀ (fuel : Nat) (fr : List α), fr.length ≤ fuel →
      splitFramesAux fuel M fr = splitFramesAux fr.length M fr := by
  intro fuel
  induction fuel using Nat.strong_induction_on with
  | _ fuel ih =>
    intro fr hf
    cases fuel with
    | zero =>
        have : fr = [] := List.length_eq_zero.mp (Nat.le_zero.mp hf)
        subst this; rfl
    | succ fuel =>
        cases fr with
        | nil => simp [splitFramesAux]
        | cons x xs =>
            simp only [splitFramesAux, List.length_cons]
            by_cases hM : M = 0
            · simp [hM]
            · by_cases hle : xs.length + 1 ≤ M
              · simp [hM, hle]
              · simp only [if_neg hM, if_neg hle,
                  if_neg (by omega : ¬ (xs.length + 1 = 0))]
                have hd : ((x :: xs).drop M).length ≤ fuel := by
                  simp only [List.length_drop, List.length_cons] at *
                  omega
                have hd2 : ((x :: xs).drop M).length ≤ xs.length := by
                  simp only [List.length_drop, List.length_cons]
                  omega
                rw [ih fuel (by omega) _ hd,
                    ih xs.length (by simp only [List.length_cons] at hf; omega) _ hd2]

/-- The defining recurrence of `splitFrames`. -/
theorem splitFrames_eq (M : Nat) (fr : List α) :
    splitFrames M fr =
      if M = 0 then []
      else if fr.length = 0 then []
      else if fr.length ≤ M then [fr]
      else fr.take M :: splitFrames M (fr.drop M) := by
  show splitFramesAux fr.length M fr = _
  match h : fr with
  | [] => simp [splitFramesAux]
  | x :: xs =>
      simp only [splitFramesAux, List.length_cons]
      by_cases hM : M = 0
      · simp [hM]
      · by_cases hle : xs.length + 1 ≤ M
        · simp [hM, hle]
        · simp only [if_neg hM, if_neg hle, if_neg (by omega : ¬ (xs.length + 1 = 0))]
          congr 1
          show splitFramesAux xs.length M ((x :: xs).drop M) = splitFrames M ((x :: xs).drop M)
          rw [splitFramesAux_eq_len M xs.length _
                (by simp only [List.length_drop, List.length_cons]; omega)]
          rfl

/-- A frame with no valid position for any marker (all NaN). -/
def frameAllNaN (f : Frame) : Bool := f.all fun m => m.isNone

/-- Modelled from the spec (§4.5): a chunk "with no valid data for any
marker" — every frame is all-NaN. -/
def chunkAllNaN (c : Chunk) : Bool := c.all frameAllNaN

/-- Modelled from the spec (§4.5): trailing all-NaN chunks are dropped,
not emitted as degenerate training examples. -/
def dropTrailingAllNaN (cs : List Chunk) : List Chunk :=
  (cs.reverse.dropWhile chunkAllNaN).reverse

/-- Both alignment markers (identified by their catalog indices `iR`, `iL`)
carry a valid (non-NaN) position in frame `f`. -/
def frameValidFor (iR iL : Nat) (f : Frame) : Bool :=
  (f.getD iR none).isSome && (f.getD iL none).isSome

/-- Modelled from the spec (§4.4): the trial has at least one valid frame
for the two alignment markers; otherwise alignment fails with
`AlignmentError` and the trial is excluded. -/
def hasValidAlignmentFrame (iR iL : Nat) (t : Trial) : Bool :=
  t.any (frameValidFor iR iL)

/-- Modelled from the spec (§4.4-§4.6): one trial's contribution to the
dataset. A trial whose alignment fails is skipped (yields nothing);
otherwise the trial is split into chunks and trailing all-NaN chunks are
dropped. The alignment transform `p' = Rᵗ·(p − t)` maps valid positions to
valid positions and NaN to NaN, so it is identity on the structure the
claims concern and is not re-modelled here. -/
def processTrial (iR iL maxLen : Nat) (t : Trial) : List Chunk :=
  if hasValidAlignmentFrame iR iL t then dropTrailingAllNaN (splitFrames maxLen t)
  else []

/-- Modelled from the spec (§4.2, §6): the body-kinematics archive as the
core consumes it — participant IDs in archive order, each with its trials
in order, each trial already in aligned-trajectory form. -/
structure Archive where
  participants : List (String × List Trial)
deriving Repr

/-- Modelled from the spec (§4.6): the configuration fields the modelled
core actually branches on. Alignment markers are identified by catalog
index; paths, sampling frequency and serialization are I/O concerns outside
the model. -/
structure CoreConfig where
  alignR : Nat
  alignL : Nat
  num_participants : Nat
  max_len : Nat
deriving DecidableEq, Repr

/-- Modelled from the spec (§7): the error taxonomy of the core as the
claims exercise it. -/
inductive GenError where
  | configError (msg : String)
  | emptyDatasetError
deriving DecidableEq, Repr

/-- Modelled from the spec (§4.6): the Dataset Assembler's collection pass —
the first `num_participants` participants in archive order are processed,
each trial contributing its chunks in order. -/
def selectedSegments (cfg : CoreConfig) (archive : Archive) : List Chunk :=
  ((archive.participants.take cfg.num_participants).map
    (fun p => (p.2.map (processTrial cfg.alignR cfg.alignL cfg.max_len)).flatten)).flatten

/-- Modelled from the spec (§4.6): the run's result — `ConfigError` when
more participants are requested than the archive holds (checked before any
trial is touched), `EmptyDatasetError` when no trial contributed a segment,
and the collected segments otherwise. -/
def generateSimTrajectories (cfg : CoreConfig) (archive : Archive) :
    Except GenError (List Chunk) :=
  if archive.participants.length < cfg.num_participants then
    Except.error (GenError.configError "numParticipants exceeds available participants")
  else if (selectedSegments cfg archive).isEmpty then
    Except.error GenError.emptyDatasetError
  else Except.ok (selectedSegments cfg archive)

/-- A segment containing at least one NaN position. -/
def chunkHasNaN (c : Chunk) : Bool := c.any fun f => f.any fun m => m.isNone

/-! ## Properties of the Segmenter -/

/-- Concatenating the chunks of a trial reconstructs the trial exactly:
no frame is lost, duplicated or reordered. -/
theorem splitFrames_flatten (M : Nat) (hM : 0 < M) (fr : List α) :
    (splitFrames M fr).flatten = fr := by
  rw [splitFrames_eq]
  by_cases h0 : fr.length = 0
  · simp [hM.ne', h0, List.length_eq_zero.mp h0]
  · by_cases hle : fr.length ≤ M
    · simp [hM.ne', h0, hle]
    · have ih := splitFrames_flatten M hM (fr.drop M)
      simp [hM.ne', h0, hle, ih]
termination_by fr.length
decreasing_by simp; omega

/-- No chunk is longer than `maxLen`. -/
theorem splitFrames_mem_length_le (M : Nat) (fr : List α) :
    ∀ c ∈ splitFrames M fr, c.length ≤ M := by
  intro c hc
  rw [splitFrames_eq] at hc
  by_cases hM : M = 0
  · simp [hM] at hc
  · by_cases h0 : fr.length = 0
    · simp [hM, h0] at hc
    · by_cases hle : fr.length ≤ M
      · simp [hM, h0, hle] at hc; subst hc; omega
      · simp [hM, h0, hle] at hc
        rcases hc with h | h
        · subst h; simp only [List.length_take]; omega
        · exact splitFrames_mem_length_le M (fr.drop M) c h
termination_by fr.length
decreasing_by simp; omega

/-- A non-empty trial yields at least one chunk. -/
theorem splitFrames_ne_nil (M : Nat) (hM : 0 < M) (fr : List α) (hne : fr ≠ []) :
    splitFrames M fr ≠ [] := by
  rw [splitFrames_eq]
  have h0 : ¬ fr.length = 0 := by simpa [List.length_eq_zero] using hne
  by_cases hle : fr.length ≤ M
  · simp [hM.ne', h0, hle]
  · simp [hM.ne', h0, hle]

/-- Every chunk but the last holds exactly `maxLen` frames. -/
theorem splitFrames_dropLast_length (M : Nat) (fr : List α) :
    ∀ c ∈ (splitFrames M fr).dropLast, c.length = M := by
  intro c hc
  rw [splitFrames_eq] at hc
  by_cases hM : M = 0
  · simp [hM] at hc
  · by_cases h0 : fr.length = 0
    · simp [hM, h0] at hc
    · by_cases hle : fr.length ≤ M
      · simp [hM, h0, hle] at hc
      · simp only [if_neg hM, if_neg h0, if_neg hle] at hc
        have hrec : splitFrames M (fr.drop M) ≠ [] := by
          apply splitFrames_ne_nil M (Nat.pos_of_ne_zero hM)
          intro h; have := congrArg List.length h; simp at this; omega
        rw [List.dropLast_cons_of_ne_nil hrec] at hc
        rcases List.mem_cons.mp hc with h | h
        · subst h; simp only [List.length_take]; omega
        · exact splitFrames_dropLast_length M (fr.drop M) c h
termination_by fr.length
decreasing_by simp; omega

/-- A non-empty trial of length `L` yields exactly `⌈L / M⌉` chunks
(as the Nat computation `(L + M - 1) / M`). -/
theorem splitFrames_length_eq (M : Nat) (hM : 0 < M) (fr : List α) (hne : fr ≠ []) :
    (splitFrames M fr).length = (fr.length + M - 1) / M := by
  rw [splitFrames_eq]
  have h0 : ¬ fr.length = 0 := by simpa [List.length_eq_zero] using hne
  by_cases hle : fr.length ≤ M
  · simp only [if_neg hM.ne', if_neg h0, if_pos hle, List.length_singleton]
    symm
    rw [Nat.div_eq_of_lt_le] <;> omega
  · have hne2 : fr.drop M ≠ [] := by
      intro h; have := congrArg List.length h; simp at this; omega
    have ih := splitFrames_length_eq M hM (fr.drop M) hne2
    simp only [if_neg hM.ne', if_neg h0, if_neg hle, List.length_cons, ih, List.length_drop]
    have h1 : fr.length - M + M - 1 = fr.length - 1 := by omega
    have h2 : fr.length + M - 1 = (fr.length - 1) + M := by omega
    rw [h1, h2, Nat.add_div_right _ hM]
termination_by fr.length
decreasing_by simp; omega

/-- Every chunk is a contiguous infix of its trial: chunks never cross
trial boundaries. -/
theorem splitFrames_infix (M : Nat) (hM : 0 < M) (fr : List α) :
    ∀ c ∈ splitFrames M fr, c <:+: fr := by
  intro c hc
  have := splitFrames_flatten M hM fr
  rw [← this]
  exact List.infix_of_mem_flatten hc

/-- Dropping a prefix of matching elements shortens a list by exactly the
number of matches. -/
theorem dropWhile_length (p : α → Bool) (l : List α) :
    (l.dropWhile p).length = l.length - (l.takeWhile p).length := by
  have h := congrArg List.length (List.takeWhile_append_dropWhile (p := p) (l := l))
  rw [List.length_append] at h
  omega

/-- The emitted chunk count is the partition chunk count minus the number
of dropped trailing all-NaN chunks. -/
theorem dropTrailingAllNaN_length (cs : List Chunk) :
    (dropTrailingAllNaN cs).length
      = cs.length - (cs.reverse.takeWhile chunkAllNaN).length := by
  simp [dropTrailingAllNaN, dropWhile_length]

/-! ## The end-to-end scenario of §8 -/

/-- The 300-frame, 5-marker trial of the end-to-end scenario: every frame
valid for every marker. -/
def scenarioTrial : Trial :=
  List.replicate 300 (List.replicate 5 (some ((0 : Int), 0, 0)))

/-- The scenario archive: 2 participants, one 300-frame trial each. -/
def scenarioArchive : Archive :=
  { participants := [("P01", [scenarioTrial]), ("P02", [scenarioTrial])] }

/-- The scenario configuration: the two alignment markers are catalog
indices 0 and 1, 2 participants are requested, `maxLen` is 240. -/
def scenarioCfg : CoreConfig :=
  { alignR := 0, alignL := 1, num_participants := 2, max_len := 240 }

/-- The end-to-end scenario: the run succeeds with 4 segments of lengths
240, 60, 240, 60 (two per trial), each frame holding 5 markers. -/
def endToEndScenario : Prop :=
  (generateSimTrajectories scenarioCfg scenarioArchive).map
      (fun segs => segs.map List.length) = Except.ok [240, 60, 240, 60]
  ∧ (generateSimTrajectories scenarioCfg scenarioArchive).map
      (fun segs => segs.all fun s => s.all fun f => f.length == 5)
    = Except.ok true

/-- Chunk membership is preserved when trailing all-NaN chunks are
dropped. -/
theorem mem_of_mem_dropTrailingAllNaN (cs : List Chunk) (c : Chunk)
    (hc : c ∈ dropTrailingAllNaN cs) : c ∈ cs := by
  unfold dropTrailingAllNaN at hc
  rw [List.mem_reverse] at hc
  have hsub := (List.dropWhile_sublist (l := cs.reverse) (p := chunkAllNaN)).subset hc
  exact List.mem_reverse.mp hsub

/-- Every frame of every chunk comes from the trial itself. -/
theorem splitFrames_mem_mem (M : Nat) (fr : List α) :
    ∀ c ∈ splitFrames M fr, ∀ x ∈ c, x ∈ fr := by
  intro c hc x hx
  by_cases hM : 0 < M
  · rw [← splitFrames_flatten M hM fr]
    exact List.mem_flatten.mpr ⟨c, hc, hx⟩
  · have hz : M = 0 := by omega
    subst hz
    rw [splitFrames_eq] at hc
    simp at hc

/-! ## Claim C2: the Segmenter contract -/

/-- The Segmenter contract for one trial `fr` and bound `M`: concatenating
the chunks reconstructs the trial (no gaps, no overlaps); every chunk is at
most `M` frames and is a contiguous infix of its own trial (chunks never
cross trial boundaries); every chunk but the last is exactly `M` frames; a
non-empty trial no longer than `M` yields exactly one chunk — the trial
itself; a non-empty trial of length `L` partitions into `⌈L/M⌉` chunks; and
the emitted chunk count after dropping trailing all-NaN chunks is the
partition count minus the number dropped. -/
def segmenterSpec (M : Nat) (fr : Trial) : Prop :=
  (splitFrames M fr).flatten = fr
  ∧ (∀ c ∈ splitFrames M fr, c.length ≤ M ∧ c <:+: fr)
  ∧ (∀ c ∈ (splitFrames M fr).dropLast, c.length = M)
  ∧ (fr ≠ [] → fr.length ≤ M → splitFrames M fr = [fr])
  ∧ (fr ≠ [] → (splitFrames M fr).length = (fr.length + M - 1) / M)
  ∧ (dropTrailingAllNaN (splitFrames M fr)).length
      = (splitFrames M fr).length
        - ((splitFrames M fr).reverse.takeWhile chunkAllNaN).length

set_option maxRecDepth 8000 in
/-- C2: for every trial and every `maxLen = M > 0` the Segmenter emits
consecutive non-overlapping chunks of exactly `M` frames except the final
chunk, which holds the remainder and is never longer than `M`; chunks never
cross trial boundaries; a trial with `L ≤ M` yields exactly one chunk of
length `L`; the chunk count is `⌈L/M⌉` minus any dropped all-NaN trailing
chunks; concatenating the chunks reconstructs the trial's full frame range;
and 2 participants each with one 300-frame trial and `maxLen = 240` yield 4
segments, of lengths 240 and 60 per trial. -/
theorem segmenter_partition_spec (M : Nat) (hM : 0 < M) (fr : Trial) :
    segmenterSpec M fr ∧ endToEndScenario := by
  refine ⟨⟨splitFrames_flatten M hM fr, ?_,
           splitFrames_dropLast_length M fr, ?_,
           fun hne => splitFrames_length_eq M hM fr hne,
           dropTrailingAllNaN_length (splitFrames M fr)⟩,
          rfl, rfl⟩
  · intro c hc
    exact ⟨splitFrames_mem_length_le M fr c hc, splitFrames_infix M hM fr c hc⟩
  · intro hne hle
    rw [splitFrames_eq]
    have h0 : ¬ fr.length = 0 := by simpa [List.length_eq_zero] using hne
    simp [hM.ne', h0, hle]

/-- A 3-frame, 1-marker trial (with one NaN frame) used to instantiate the
Segmenter theorem. -/
def witnessTrial : Trial := [[some ((0 : Int), 0, 0)], [none], [some ((1 : Int), 2, 3)]]

set_option maxRecDepth 8000 in
/-- Witness for C2 at `M = 2` and a concrete 3-frame trial. -/
theorem segmenter_partition_spec_witness :
    0 < 2 ∧ (segmenterSpec 2 witnessTrial ∧ endToEndScenario) :=
  ⟨by decide, segmenter_partition_spec 2 (by decide) witnessTrial⟩

/-! ## Claim C1: out-of-range participant counts are rejected -/

/-- C1: requesting more participants than the archive holds fails with
`ConfigError` — for every archive of that size, whatever its trials
contain, so before any trial is processed; and the CLI wrapper and the
config template each reject a `num_participants` outside 1..100 prior to
invoking the core (the wrapper exits at validation with no core call, the
template's `validate_config` reports a non-empty error list and its main
exits early). -/
theorem numParticipants_range_rejected (cfg : CoreConfig) (archive : Archive)
    (h : archive.participants.length < cfg.num_participants) :
    generateSimTrajectories cfg archive
      = Except.error (GenError.configError "numParticipants exceeds available participants")
    ∧ (∀ (pe : String → Bool) (a : Args) (core : CoreCall → CoreResult),
        a.num_participants < 1 ∨ a.num_participants > 100 →
        wrapperMain pe a core = MainOutcome.validationExit
          ∧ wrapperCoreCalls pe a = [])
    ∧ (∀ (pe : String → Bool) (dirname : String → String) (c : ConfigConsts),
        c.NUM_PARTICIPANTS < 1 ∨ c.NUM_PARTICIPANTS > 100 →
        (validate_config pe dirname c).1 ≠ []
          ∧ configMainExitsEarly pe dirname c = true) := by
  refine ⟨by simp [generateSimTrajectories, h], ?_, ?_⟩
  · intro pe a core hrange
    have hv : validateArgs pe a = none := by
      unfold validateArgs
      by_cases h1 : pe a.bodykin = false
      · simp [h1]
      · by_cases h2 : pe a.markerset = false
        · simp [h1, h2]
        · simp [h1, h2, hrange]
    constructor <;> simp [wrapperMain, wrapperCoreCalls, hv]
  · intro pe dirname c hrange
    have herr : (validate_config pe dirname c).1 ≠ [] := by
      simp only [validate_config]
      rcases hrange with h' | h' <;> simp [h']
    refine ⟨herr, ?_⟩
    simpa [configMainExitsEarly, List.isEmpty_iff] using herr

/-- A one-participant archive used to instantiate C1. -/
def smallArchive : Archive := { participants := [("P01", [witnessTrial])] }

/-- A configuration requesting 3 participants from a 1-participant
archive. -/
def overAskCfg : CoreConfig :=
  { alignR := 0, alignL := 0, num_participants := 3, max_len := 240 }

/-- Witness for C1: 3 requested, 1 available, `ConfigError` returned. -/
theorem numParticipants_range_rejected_witness :
    smallArchive.participants.length < overAskCfg.num_participants
    ∧ generateSimTrajectories overAskCfg smallArchive
        = Except.error (GenError.configError "numParticipants exceeds available participants") :=
  ⟨by decide, (numParticipants_range_rejected overAskCfg smallArchive (by decide)).1⟩

/-! ## Claim C4: determinism of generation -/

/-- C4: the generated dataset is a pure function of the configuration and
of the selected participant prefix. Any two archives that agree on their
first `num_participants` participants (and can serve the request) produce
the same result — same segments, same content, same order; two runs on
literally identical inputs are the special case `a2 = a1`. -/
theorem generate_deterministic (cfg : CoreConfig) (a1 a2 : Archive)
    (hn : cfg.num_participants ≤ a1.participants.length)
    (heq : a1.participants.take cfg.num_participants
         = a2.participants.take cfg.num_participants) :
    generateSimTrajectories cfg a1 = generateSimTrajectories cfg a2 := by
  have hn2 : cfg.num_participants ≤ a2.participants.length := by
    have hlen := congrArg List.length heq
    simp only [List.length_take] at hlen
    omega
  unfold generateSimTrajectories selectedSegments
  rw [if_neg (Nat.not_lt.mpr hn), if_neg (Nat.not_lt.mpr hn2), heq]

/-- A two-participant archive; its second participant differs from
`smallArchive2`'s. -/
def archiveA : Archive :=
  { participants := [("P01", [witnessTrial]), ("P02", [])] }

/-- A two-participant archive agreeing with `archiveA` on the first
participant only. -/
def archiveB : Archive :=
  { participants := [("P01", [witnessTrial]), ("P99", [witnessTrial, witnessTrial])] }

/-- A configuration selecting a single participant. -/
def onePCfg : CoreConfig :=
  { alignR := 0, alignL := 0, num_participants := 1, max_len := 2 }

/-- Witness for C4: archives agreeing on the selected first participant
yield identical output even though their unselected parts differ. -/
theorem generate_deterministic_witness :
    onePCfg.num_participants ≤ archiveA.participants.length
    ∧ archiveA.participants.take onePCfg.num_participants
        = archiveB.participants.take onePCfg.num_participants
    ∧ generateSimTrajectories onePCfg archiveA = generateSimTrajectories onePCfg archiveB :=
  ⟨by decide, rfl,
   generate_deterministic onePCfg archiveA archiveB (by decide) rfl⟩

/-! ## Claim C3: NaN in the output -/

/-- A 2-frame, 2-marker trial whose first frame is fully valid and whose
second frame has a NaN first marker (a tracking dropout). -/
def nanTrial : Trial :=
  [[some ((0 : Int), 0, 0), some ((0 : Int), 0, 0)],
   [none, some ((0 : Int), 0, 0)]]

/-- An archive holding just `nanTrial`. -/
def nanArchive : Archive := { participants := [("P01", [nanTrial])] }

/-- A configuration selecting that participant, alignment markers at
catalog indices 0 and 1. -/
def nanCfg : CoreConfig :=
  { alignR := 0, alignL := 1, num_participants := 1, max_len := 240 }

/-- C3 fails on the modelled pipeline: a run can succeed while an emitted
segment contains NaN. The alignment frame (frame 0) is valid, so the trial
is processed; the dropout NaN in frame 1 is emitted as NaN per the §4.3
edge-case policy, and the chunk is not all-NaN, so it is not dropped. -/
theorem output_nan_counterexample :
    ¬ (∀ (cfg : CoreConfig) (archive : Archive) (segs : List Chunk),
        generateSimTrajectories cfg archive = Except.ok segs →
        ∀ s ∈ segs, chunkHasNaN s = false) := by
  intro h
  have hmem := h nanCfg nanArchive [nanTrial] rfl nanTrial (by simp)
  exact absurd hmem (by decide)

/-- A successful run returns exactly the segments collected from the
selected participants. -/
theorem generate_ok_eq (cfg : CoreConfig) (archive : Archive)
    (segs : List Chunk)
    (hok : generateSimTrajectories cfg archive = Except.ok segs) :
    segs = selectedSegments cfg archive := by
  unfold generateSimTrajectories at hok
  by_cases h1 : archive.participants.length < cfg.num_participants
  · rw [if_pos h1] at hok; cases hok
  · rw [if_neg h1] at hok
    by_cases h2 : (selectedSegments cfg archive).isEmpty
    · rw [if_pos h2] at hok; cases hok
    · rw [if_neg h2] at hok
      cases hok
      rfl

/-- Every collected segment is a chunk the Segmenter produced from a trial
of one of the *selected* participants. -/
theorem mem_selectedSegments_source (cfg : CoreConfig) (archive : Archive)
    (s : Chunk) (hs : s ∈ selectedSegments cfg archive) :
    ∃ p ∈ archive.participants.take cfg.num_participants,
      ∃ t ∈ p.2, s ∈ splitFrames cfg.max_len t := by
  unfold selectedSegments at hs
  rw [List.mem_flatten] at hs
  obtain ⟨l, hl, hsl⟩ := hs
  rw [List.mem_map] at hl
  obtain ⟨p, hp, rfl⟩ := hl
  rw [List.mem_flatten] at hsl
  obtain ⟨l2, hl2, hsl2⟩ := hsl
  rw [List.mem_map] at hl2
  obtain ⟨t, ht, rfl⟩ := hl2
  unfold processTrial at hsl2
  by_cases ha : hasValidAlignmentFrame cfg.alignR cfg.alignL t = true
  · rw [if_pos ha] at hsl2
    exact ⟨p, hp, t, ht, mem_of_mem_dropTrailingAllNaN _ s hsl2⟩
  · rw [if_neg ha] at hsl2
    cases hsl2

/-- C3 amended: in every successful run, every frame of every emitted
segment is a frame of one of the *selected* participants' trials, emitted
verbatim — so NaN stands in the output exactly where the source frame was
marked invalid, never imputed; and whenever every source frame of the
selected participants is valid, every emitted segment is NaN-free. -/
theorem output_nanFree_of_valid_source (cfg : CoreConfig) (archive : Archive)
    (segs : List Chunk)
    (hok : generateSimTrajectories cfg archive = Except.ok segs) :
    (∀ s ∈ segs, ∀ f ∈ s,
      ∃ p ∈ archive.participants.take cfg.num_participants, ∃ t ∈ p.2, f ∈ t)
    ∧ ((∀ p ∈ archive.participants.take cfg.num_participants,
          ∀ t ∈ p.2, ∀ f ∈ t, ∀ m ∈ f, m.isSome = true) →
        ∀ s ∈ segs, chunkHasNaN s = false) := by
  have hseg := generate_ok_eq cfg archive segs hok
  subst hseg
  constructor
  · intro s hs f hf
    obtain ⟨p, hp, t, ht, hsplit⟩ := mem_selectedSegments_source cfg archive s hs
    exact ⟨p, hp, t, ht, splitFrames_mem_mem cfg.max_len t s hsplit f hf⟩
  · intro hvalid s hs
    obtain ⟨p, hp, t, ht, hsplit⟩ := mem_selectedSegments_source cfg archive s hs
    have hframes : ∀ x ∈ s, x ∈ t := splitFrames_mem_mem cfg.max_len t s hsplit
    have ht' : ∀ f ∈ t, ∀ m ∈ f, m.isSome = true := hvalid p hp t ht
    unfold chunkHasNaN
    rw [List.any_eq_false]
    intro f hf
    simp only [Bool.not_eq_true]
    rw [List.any_eq_false]
    intro m hm
    have hms := ht' f (hframes f hf) m hm
    cases m with
    | none => simp at hms
    | some v => simp

/-- A fully valid 2-frame, 2-marker trial. -/
def validTrial : Trial :=
  [[some ((1 : Int), 0, 0), some ((0 : Int), 1, 0)],
   [some ((2 : Int), 0, 0), some ((0 : Int), 2, 0)]]

/-- An archive holding just `validTrial`. -/
def validArchive : Archive := { participants := [("P01", [validTrial])] }

/-- Witness for the amended C3: a run over an archive whose selected
participants are fully valid yields a NaN-free output. -/
theorem output_nanFree_of_valid_source_witness :
    generateSimTrajectories nanCfg validArchive = Except.ok [validTrial]
    ∧ (∀ p ∈ validArchive.participants.take nanCfg.num_participants,
        ∀ t ∈ p.2, ∀ f ∈ t, ∀ m ∈ f, m.isSome = true)
    ∧ ∀ s ∈ [validTrial], chunkHasNaN s = false :=
  ⟨rfl, by decide,
   (output_nanFree_of_valid_source nanCfg validArchive [validTrial] rfl).2 (by decide)⟩

/-! ## Claim C5: wrapper validation establishes the core's preconditions -/

/-- `validateArgs` succeeds exactly when both input paths exist and the
participant count is in range. -/
theorem validateArgs_some_iff (pe : String → Bool) (a : Args) :
    validateArgs pe a = some () ↔
      pe a.bodykin = true ∧ pe a.markerset = true
      ∧ 1 ≤ a.num_participants ∧ a.num_participants ≤ 100 := by
  cases hb : pe a.bodykin <;> cases hm : pe a.markerset <;>
    by_cases h3 : a.num_participants < 1 ∨ a.num_participants > 100 <;>
    simp [validateArgs, hb, hm]

/-- C5: whenever the wrapper's `main` reaches the `generateSimTrajectories`
call, the validated preconditions hold — the bodykin and markerset paths
exist and `1 ≤ num_participants ≤ 100` (also as the fields of the call it
builds, so the core's out-of-range branches are unreachable from the
wrapper); an execution violating any precondition exits with status 1
before the core is invoked. -/
theorem wrapper_validation_preconditions (pe : String → Bool) (a : Args) :
    (validateArgs pe a = some () →
      pe a.bodykin = true ∧ pe a.markerset = true
      ∧ 1 ≤ a.num_participants ∧ a.num_participants ≤ 100
      ∧ 1 ≤ (mkCoreCall a).num_participants
      ∧ (mkCoreCall a).num_participants ≤ 100)
    ∧ (validateArgs pe a = none →
        (∀ core, wrapperMain pe a core = MainOutcome.validationExit
          ∧ (wrapperMain pe a core).exitStatus = 1)
        ∧ wrapperCoreCalls pe a = [])
    ∧ (pe a.bodykin = false ∨ pe a.markerset = false
        ∨ a.num_participants < 1 ∨ a.num_participants > 100 →
        validateArgs pe a = none) := by
  refine ⟨?_, ?_, ?_⟩
  · intro h
    obtain ⟨h1, h2, h3, h4⟩ := (validateArgs_some_iff pe a).mp h
    exact ⟨h1, h2, h3, h4, h3, h4⟩
  · intro h
    refine ⟨fun core => ?_, ?_⟩
    · constructor <;> simp [wrapperMain, h, MainOutcome.exitStatus]
    · simp [wrapperCoreCalls, h]
  · intro h
    cases hv : validateArgs pe a with
    | none => rfl
    | some u =>
        cases u
        obtain ⟨h1, h2, h3, h4⟩ := (validateArgs_some_iff pe a).mp hv
        rcases h with h' | h' | h' | h'
        · rw [h1] at h'; simp at h'
        · rw [h2] at h'; simp at h'
        · omega
        · omega

/-- A filesystem on which exactly the two demo input files exist. -/
def demoFS : String → Bool :=
  fun s => s == "bk.hdf5" || s == "ms.xml"

/-- A fully valid argument set over `demoFS`. -/
def demoArgs : Args :=
  { bodykin := "bk.hdf5", markerset := "ms.xml", output := "out.pickle"
    align_right := "RAC", align_left := "LAC", fs := 240
    num_participants := 10, max_len := 180 }

/-- Witness for C5: on a validated argument set the preconditions hold. -/
theorem wrapper_validation_preconditions_witness :
    demoFS demoArgs.bodykin = true ∧ demoFS demoArgs.markerset = true
    ∧ 1 ≤ demoArgs.num_participants ∧ demoArgs.num_participants ≤ 100
    ∧ 1 ≤ (mkCoreCall demoArgs).num_participants
    ∧ (mkCoreCall demoArgs).num_participants ≤ 100 :=
  (wrapper_validation_preconditions demoFS demoArgs).1 (by decide)

/-! ## Claim C6: the core is called exactly once, fields unmodified -/

/-- C6: for every argument set that passes validation the wrapper performs
exactly one core call, whose keyword arguments are the parsed argument
values unmodified; and the config template's call passes its module
constants unmodified the same way. -/
theorem core_called_once_unmodified (pe : String → Bool) (a : Args)
    (h : validateArgs pe a = some ()) :
    wrapperCoreCalls pe a = [mkCoreCall a]
    ∧ (mkCoreCall a).bodykinpath = a.bodykin
    ∧ (mkCoreCall a).markersetpath = a.markerset
    ∧ (mkCoreCall a).outputfile = a.output
    ∧ (mkCoreCall a).alignMkR = a.align_right
    ∧ (mkCoreCall a).alignMkL = a.align_left
    ∧ (mkCoreCall a).fs = a.fs
    ∧ (mkCoreCall a).num_participants = a.num_participants
    ∧ (mkCoreCall a).max_len = a.max_len
    ∧ ∀ c : ConfigConsts,
        (configCoreCall c).bodykinpath = c.BODYKIN_PATH
        ∧ (configCoreCall c).markersetpath = c.MARKERSET_PATH
        ∧ (configCoreCall c).outputfile = c.OUTPUT_PATH
        ∧ (configCoreCall c).alignMkR = c.ALIGN_MARKER_RIGHT
        ∧ (configCoreCall c).alignMkL = c.ALIGN_MARKER_LEFT
        ∧ (configCoreCall c).fs = c.SAMPLING_FREQUENCY
        ∧ (configCoreCall c).num_participants = c.NUM_PARTICIPANTS
        ∧ (configCoreCall c).max_len = c.MAX_SEGMENT_LENGTH := by
  refine ⟨?_, rfl, rfl, rfl, rfl, rfl, rfl, rfl, rfl,
          fun c => ⟨rfl, rfl, rfl, rfl, rfl, rfl, rfl, rfl⟩⟩
  simp [wrapperCoreCalls, h]

/-- Witness for C6 at the demo argument set. -/
theorem core_called_once_unmodified_witness :
    wrapperCoreCalls demoFS demoArgs = [mkCoreCall demoArgs] :=
  (core_called_once_unmodified demoFS demoArgs (by decide)).1

/-! ## Claim C7: every run reports a non-empty dataset or fails loudly -/

/-- C7: every run of the wrapper either completes the success report — and
then the reported dataset is non-empty — or terminates with exit status 1;
any exception the generation raises (the run-wide `EmptyDatasetError`
included) surfaces as the handler's fatal error with that exception's
message. -/
theorem wrapper_reports_or_fails (pe : String → Bool) (a : Args)
    (core : CoreCall → CoreResult) :
    ((∃ s, wrapperMain pe a core = MainOutcome.success s ∧ 1 ≤ s.total)
      ∨ (wrapperMain pe a core).exitStatus = 1)
    ∧ (∀ msg, validateArgs pe a = some () →
        core (mkCoreCall a) = CoreResult.exn msg →
        wrapperMain pe a core = MainOutcome.fatalExit msg
          ∧ (MainOutcome.fatalExit msg).exitStatus = 1) := by
  constructor
  · cases hv : validateArgs pe a with
    | none => right; simp [wrapperMain, hv, MainOutcome.exitStatus]
    | some u =>
        cases u
        cases hc : core (mkCoreCall a) with
        | exn msg => right; simp [wrapperMain, hv, hc, MainOutcome.exitStatus]
        | ok data =>
            cases data with
            | nil => right; simp [wrapperMain, hv, hc, summarize, MainOutcome.exitStatus]
            | cons d rest =>
                left
                refine ⟨{ total := rest.length + 1, markersPerSegment := d.shape1,
                          minLen := List.foldl min d.shape0 (rest.map Seg.shape0),
                          maxLen := List.foldl max d.shape0 (rest.map Seg.shape0) },
                        ?_, ?_⟩
                · simp [wrapperMain, hv, hc, summarize]
                · show 1 ≤ rest.length + 1
                  omega
  · intro msg hv hc
    exact ⟨by simp [wrapperMain, hv, hc], rfl⟩

/-- A core behaviour that raises the run-wide empty-dataset error. -/
def failingCore : CoreCall → CoreResult :=
  fun _ => CoreResult.exn "EmptyDatasetError: no usable segments"

/-- Witness for C7: an exception raised by the core becomes the fatal-exit
outcome with exit status 1. -/
theorem wrapper_reports_or_fails_witness :
    wrapperMain demoFS demoArgs failingCore
      = MainOutcome.fatalExit "EmptyDatasetError: no usable segments"
    ∧ (MainOutcome.fatalExit "EmptyDatasetError: no usable segments").exitStatus = 1 :=
  (wrapper_reports_or_fails demoFS demoArgs failingCore).2
    "EmptyDatasetError: no usable segments" (by decide) rfl

/-! ## Claim C8: an empty result cannot be reported as success -/

/-- C8: if the core returns an empty list without raising, the summary
block itself raises (`data[0]` is an out-of-range index), the surrounding
handler catches it, and the process exits with status 1; consequently a
success report implies the core returned at least one segment. -/
theorem empty_data_cannot_report_success (pe : String → Bool) (a : Args)
    (core : CoreCall → CoreResult)
    (hv : validateArgs pe a = some ())
    (hc : core (mkCoreCall a) = CoreResult.ok []) :
    wrapperMain pe a core = MainOutcome.fatalExit "list index out of range"
    ∧ (wrapperMain pe a core).exitStatus = 1
    ∧ ∀ (core2 : CoreCall → CoreResult) (s : RunSummary),
        wrapperMain pe a core2 = MainOutcome.success s →
        ∃ d rest, core2 (mkCoreCall a) = CoreResult.ok (d :: rest) := by
  refine ⟨by simp [wrapperMain, hv, hc, summarize],
          by simp [wrapperMain, hv, hc, summarize, MainOutcome.exitStatus], ?_⟩
  intro core2 s hs
  simp only [wrapperMain, hv] at hs
  cases hc2 : core2 (mkCoreCall a) with
  | exn m => rw [hc2] at hs; cases hs
  | ok data =>
      rw [hc2] at hs
      cases data with
      | nil => simp [summarize] at hs
      | cons d rest => exact ⟨d, rest, rfl⟩

/-- A core behaviour that returns an empty dataset without raising. -/
def emptyCore : CoreCall → CoreResult := fun _ => CoreResult.ok []

/-- Witness for C8: the empty return turns into the IndexError fatal exit
with status 1. -/
theorem empty_data_cannot_report_success_witness :
    wrapperMain demoFS demoArgs emptyCore
      = MainOutcome.fatalExit "list index out of range"
    ∧ (wrapperMain demoFS demoArgs emptyCore).exitStatus = 1 :=
  ⟨(empty_data_cannot_report_success demoFS demoArgs emptyCore (by decide) rfl).1,
   (empty_data_cannot_report_success demoFS demoArgs emptyCore (by decide) rfl).2.1⟩

/-! ## Claim C9: argparse defaults match the config template -/

/-- C9: omitting `--num-participants` and `--max-len` makes the wrapper
invoke the core with `num_participants = 100` and `max_len = 240`, matching
the config template's `NUM_PARTICIPANTS = 100` and
`MAX_SEGMENT_LENGTH = 240`. -/
theorem wrapper_defaults (r : RawArgs)
    (h1 : r.num_participants = none) (h2 : r.max_len = none) :
    (parse_args r).num_participants = 100 ∧ (parse_args r).max_len = 240
    ∧ (mkCoreCall (parse_args r)).num_participants = 100
    ∧ (mkCoreCall (parse_args r)).max_len = 240
    ∧ defaultConfig.NUM_PARTICIPANTS = 100
    ∧ defaultConfig.MAX_SEGMENT_LENGTH = 240 := by
  refine ⟨?_, ?_, ?_, ?_, rfl, rfl⟩ <;> simp [parse_args, mkCoreCall, h1, h2]

/-- A raw command line omitting both optional flags. -/
def demoRawArgs : RawArgs :=
  { bodykin := "bk.hdf5", markerset := "ms.xml", output := "out.pickle"
    align_right := "RAC", align_left := "LAC", fs := 240
    num_participants := none, max_len := none }

/-- Witness for C9 on a concrete raw command line. -/
theorem wrapper_defaults_witness :
    (parse_args demoRawArgs).num_participants = 100
    ∧ (parse_args demoRawArgs).max_len = 240
    ∧ (mkCoreCall (parse_args demoRawArgs)).num_participants = 100
    ∧ (mkCoreCall (parse_args demoRawArgs)).max_len = 240
    ∧ defaultConfig.NUM_PARTICIPANTS = 100
    ∧ defaultConfig.MAX_SEGMENT_LENGTH = 240 :=
  wrapper_defaults demoRawArgs rfl rfl

/-! ## Claim C10: errors vs. warnings in the config template -/

/-- C10: `validate_config` returns a non-empty error list exactly when an
input file is missing or `NUM_PARTICIPANTS` is outside 1..100; an
out-of-range `SAMPLING_FREQUENCY` (outside [50, 500]) or
`MAX_SEGMENT_LENGTH` (outside [60, 500]) produces only a warning; and the
template's main exits early exactly when the error list is non-empty, so
warnings alone never abort the run. -/
theorem validate_config_errors_iff (pe : String → Bool)
    (dirname : String → String) (c : ConfigConsts) :
    ((validate_config pe dirname c).1 ≠ [] ↔
      (pe c.BODYKIN_PATH = false ∨ pe c.MARKERSET_PATH = false
        ∨ c.NUM_PARTICIPANTS < 1 ∨ c.NUM_PARTICIPANTS > 100))
    ∧ (c.SAMPLING_FREQUENCY < 50 ∨ c.SAMPLING_FREQUENCY > 500 →
        ("Unusual sampling frequency: " ++ toString c.SAMPLING_FREQUENCY ++ " Hz")
          ∈ (validate_config pe dirname c).2)
    ∧ (c.MAX_SEGMENT_LENGTH < 60 ∨ c.MAX_SEGMENT_LENGTH > 500 →
        ("Unusual max segment length: " ++ toString c.MAX_SEGMENT_LENGTH ++ " frames")
          ∈ (validate_config pe dirname c).2)
    ∧ (configMainExitsEarly pe dirname c = true ↔
        (validate_config pe dirname c).1 ≠ []) := by
  refine ⟨?_, ?_, ?_, ?_⟩
  · unfold validate_config
    by_cases h1 : pe c.BODYKIN_PATH = false <;>
      by_cases h2 : pe c.MARKERSET_PATH = false <;>
      by_cases h3 : c.NUM_PARTICIPANTS < 1 ∨ c.NUM_PARTICIPANTS > 100 <;>
      simp [h1, h2, h3]
  · intro h
    unfold validate_config
    simp [h]
  · intro h
    unfold validate_config
    by_cases h4 : c.SAMPLING_FREQUENCY < 50 ∨ c.SAMPLING_FREQUENCY > 500 <;>
      simp [h, h4]
  · unfold configMainExitsEarly
    rw [Bool.not_eq_eq_eq_not]
    simp [List.isEmpty_iff]

/-- The template constants with an out-of-range sampling frequency
(1000 Hz). -/
def oddFreqConfig : ConfigConsts :=
  { defaultConfig with SAMPLING_FREQUENCY := 1000 }

/-- Witness for C10: a 1000 Hz sampling frequency produces the
corresponding warning (an error-free configuration would still proceed). -/
theorem validate_config_errors_iff_witness :
    ("Unusual sampling frequency: " ++ toString oddFreqConfig.SAMPLING_FREQUENCY ++ " Hz")
      ∈ (validate_config demoFS (fun _ => "") oddFreqConfig).2 :=
  (validate_config_errors_iff demoFS (fun _ => "") oddFreqConfig).2.1
    (Or.inr (by decide))

end AML
